import Mathlib

/-!
Verification of the Expectation wrapper (src/modules/Expectation.js) of the
`expect` assertion library, as a shallow embedding in Lean 4.

The only source file of the repository is `Expectation.js`; the collaborators
it imports (`assert`, the `is-equal` deep comparator, `is-regex`,
`SpyUtils.isSpy`, and the `TestUtils` helpers) are not part of the sources, so
they are modelled from the specification (spec §4.6, §6) and marked
`Modelled from the spec:` in their doc comments.

JavaScript values are embedded as the inductive `JSVal`.  Numbers are rationals
plus an explicit `nan` constructor (the claims under study only need that
`NaN === NaN` is false and that every ordering comparison involving `NaN` is
false, which holds for IEEE doubles and for this model alike).  Heap-allocated
values (arrays, objects, functions, regexps, spies) carry a reference id; the
JavaScript strict-equality operator `===` compares such values by reference
identity, which the model renders as equality of ids.
-/

inductive JSVal : Type where
  | undef : JSVal
  | null : JSVal
  | bool : Bool → JSVal
  | num : Rat → JSVal
  | nan : JSVal
  | str : String → JSVal
  | arr : Nat → List JSVal → JSVal
  | obj : Nat → List (String × JSVal) → JSVal
  | func : Nat → JSVal
  | regexp : Nat → JSVal
  | spy : Nat → List (List JSVal) → JSVal

/-- JavaScript `typeof`.  `typeof null` is historically `"object"`; spies in
the library are functions decorated with call records, so `typeof` yields
`"function"` for them. -/
def typeOf : JSVal → String
  | .undef => "undefined"
  | .null => "object"
  | .bool _ => "boolean"
  | .num _ => "number"
  | .nan => "number"
  | .str _ => "string"
  | .arr _ _ => "object"
  | .obj _ _ => "object"
  | .func _ => "function"
  | .regexp _ => "object"
  | .spy _ _ => "function"

/-- JavaScript truthiness: everything is truthy except `undefined`, `null`,
`false`, `0`, `NaN` and the empty string. -/
def truthy : JSVal → Bool
  | .undef => false
  | .null => false
  | .bool b => b
  | .num q => decide (q ≠ 0)
  | .nan => false
  | .str s => !s.isEmpty
  | _ => true

/-- JavaScript strict equality `===`: no coercion; primitives by value,
`NaN === NaN` is `false`, heap values by reference identity (ids). -/
def strictEq : JSVal → JSVal → Bool
  | .undef, .undef => true
  | .null, .null => true
  | .bool a, .bool b => a == b
  | .num a, .num b => decide (a = b)
  | .str a, .str b => a == b
  | .arr i _, .arr j _ => i == j
  | .obj i _, .obj j _ => i == j
  | .func i, .func j => i == j
  | .regexp i, .regexp j => i == j
  | .spy i _, .spy j _ => i == j
  | _, _ => false

/-- Modelled from the spec: `TestUtils.isFunction` (the TestUtils module is
not among the sources).  Spies are tracked functions, hence callable. -/
def isFunction : JSVal → Bool
  | .func _ => true
  | .spy _ _ => true
  | _ => false

/-- Modelled from the spec: `TestUtils.isArray`. -/
def isArray : JSVal → Bool
  | .arr _ _ => true
  | _ => false

/-- Modelled from the spec: `TestUtils.isObject`, the plain-object test used
to pick the containment helper (spec §4.6: array, plain object, or string). -/
def isObject : JSVal → Bool
  | .obj _ _ => true
  | _ => false

/-- `typeof v === 'string'` as a convenient abbreviation. -/
def isString (v : JSVal) : Bool := typeOf v == "string"

/-- Modelled from the spec: `SpyUtils.isSpy`, a capability check recognizing
spy objects (which carry a list of recorded calls). -/
def isSpy : JSVal → Bool
  | .spy _ _ => true
  | _ => false

/-- Modelled from the spec: `is-regex`, recognizing regular-expression
objects. -/
def isRegExp : JSVal → Bool
  | .regexp _ => true
  | _ => false

mutual

/-- Modelled from the spec: the deep-equality comparator the source imports as
`isEqual` (the `is-equal` npm package, not among the sources).  Spec §6:
structural equality across primitives, arrays (element-wise) and plain objects
(key-set plus value equality, order-independent).  Reference ids are ignored;
opaque values (functions, regexps, spies) fall back to identity of ids. -/
def isEqual : JSVal → JSVal → Bool
  | .undef, .undef => true
  | .null, .null => true
  | .nan, .nan => true
  | .bool a, .bool b => a == b
  | .num a, .num b => decide (a = b)
  | .str a, .str b => a == b
  | .arr _ xs, .arr _ ys => isEqualList xs ys
  | .obj _ fs, .obj _ gs => fieldsIncluded fs gs && fieldsIncluded gs fs
  | .func i, .func j => i == j
  | .regexp i, .regexp j => i == j
  | .spy i _, .spy j _ => i == j
  | _, _ => false
termination_by a b => sizeOf a + sizeOf b

/-- Element-wise deep equality of two JavaScript arrays: equal lengths and
pairwise `isEqual` elements. -/
def isEqualList : List JSVal → List JSVal → Bool
  | [], [] => true
  | x :: xs, y :: ys => isEqual x y && isEqualList xs ys
  | _, _ => false
termination_by xs ys => sizeOf xs + sizeOf ys

/-- Every field of the first list has a key-equal, `isEqual`-valued field in
the second list (order-independent subset of entries). -/
def fieldsIncluded : List (String × JSVal) → List (String × JSVal) → Bool
  | [], _ => true
  | f :: fs, gs => fieldHit f gs && fieldsIncluded fs gs
termination_by fs gs => sizeOf fs + sizeOf gs

/-- A single field finds a key-equal, `isEqual`-valued partner in a list. -/
def fieldHit : String × JSVal → List (String × JSVal) → Bool
  | _, [] => false
  | (k, v), (k2, v2) :: gs => (k == k2 && isEqual v v2) || fieldHit (k, v) gs
termination_by f gs => sizeOf f + sizeOf gs

end

mutual

/-- Modelled from the spec: string form of a JavaScript value, as used by
substring containment (spec §4.6: "substring containment of value's string
form").  Arrays stringify by joining element strings with commas; rationals
stand in for the decimal rendering of numbers (no claim inspects the rendered
text of a number). -/
def jsToString : JSVal → String
  | .str s => s
  | .num q => if q.den = 1 then toString q.num else toString q.num ++ "/" ++ toString q.den
  | .nan => "NaN"
  | .bool true => "true"
  | .bool false => "false"
  | .null => "null"
  | .undef => "undefined"
  | .arr _ xs => jsToStringList xs
  | .obj _ _ => "[object Object]"
  | .func _ => "function () {}"
  | .regexp _ => "/(regexp)/"
  | .spy _ _ => "spy"
termination_by v => sizeOf v

/-- Comma-joined string forms of array elements. -/
def jsToStringList : List JSVal → String
  | [] => ""
  | [x] => jsToString x
  | x :: xs => jsToString x ++ "," ++ jsToStringList xs
termination_by xs => sizeOf xs

end

/-- The character list `pat` occurs contiguously inside `l`. -/
def charsContain (l pat : List Char) : Bool :=
  l.tails.any (fun t => pat.isPrefixOf t)

/-- Modelled from the spec: `TestUtils.stringContains` — substring containment
of the value's string form in the subject string. -/
def stringContains (s : String) (v : JSVal) : Bool :=
  charsContain s.toList (jsToString v).toList

mutual

/-- Modelled from the spec: `TestUtils.arrayContains` (spec §4.6).  True if
`value` is comparator-equal to at least one element, or — when `value` is
itself an array — if every element of `value` is found by that same rule
(an empty list of targets is trivially satisfied). -/
def arrayContains (xs : List JSVal) (value : JSVal) (cmp : JSVal → JSVal → Bool) : Bool :=
  xs.any (fun x => cmp x value) ||
    (match value with
     | .arr _ vs => arrayContainsAll xs vs cmp
     | _ => false)
termination_by sizeOf value

/-- Every target in the list is contained in `xs` in the `arrayContains`
sense. -/
def arrayContainsAll (xs : List JSVal) (vs : List JSVal) (cmp : JSVal → JSVal → Bool) : Bool :=
  match vs with
  | [] => true
  | v :: rest => arrayContains xs v cmp && arrayContainsAll xs rest cmp
termination_by sizeOf vs

end

/-- First field of `fs` whose key equals `k`. -/
def lookupField (fs : List (String × JSVal)) (k : String) : Option JSVal :=
  match fs with
  | [] => none
  | (k2, v) :: rest => if k == k2 then some v else lookupField rest k

/-- Modelled from the spec: `TestUtils.objectContains` (spec §4.6).  True if
`value` is an object whose every key exists in the subject with a
comparator-equal value (subset-of-entries semantics); a non-object `value`
never matches — a defined edge case, not an error. -/
def objectContains (fields : List (String × JSVal)) (value : JSVal)
    (cmp : JSVal → JSVal → Bool) : Bool :=
  match value with
  | .obj _ vfields =>
      vfields.all (fun kv =>
        match lookupField fields kv.1 with
        | some w => cmp w kv.2
        | none => false)
  | _ => false

/-- Modelled from the spec: `TestUtils.isA` (spec §4.3).  A string type name
is checked against the runtime's typeof-equivalent, with `"array"` as the
more-specific special case for arrays; a constructor argument would use an
`instanceof` check, and since the modelled values are plain data with no
constructor chain, no modelled value is an instance of a modelled function. -/
def isA (value : JSVal) (ty : JSVal) : Bool :=
  match ty with
  | .str name => if name == "array" then isArray value else typeOf value == name
  | _ => false

/-- The structured failure the reporter raises: the message template and the
positional substitution values passed to `assert`, plus the diff metadata that
`toEqual` attaches to the raised object before rethrowing (`showDiff`,
`actual`, `expected` — consumed by Mocha to produce a diff output).  Failures
produced by the reporter itself always have `showDiff = false` and no
actual/expected payload. -/
structure Failure where
  template : String
  values : List JSVal
  showDiff : Bool
  actualField : Option JSVal
  expectedField : Option JSVal

/-- The wrapper object of `class Expectation`: `this.actual` holds the subject
under test.  In the source, `this.context` and `this.args` are initialized
(to `null` and `[]`) only when the subject is callable; every method that
reads them first re-validates callability, and `actual` is never reassigned,
so giving the fields those defaults for all subjects is observationally
faithful. -/
structure Expectation where
  actual : JSVal
  context : JSVal := .null
  args : List JSVal := []

/-- `new Expectation(actual)`. -/
def expect (actual : JSVal) : Expectation :=
  { actual := actual, context := .null, args := [] }

/-- JavaScript `message || defaultTemplate`: a missing message and the
(falsy) empty-string message both select the default template. -/
def msgOr (message : Option String) (dflt : String) : String :=
  match message with
  | some m => if m.isEmpty then dflt else m
  | none => dflt

/-- Modelled from the spec: the reporter collaborator `assert(condition,
messageTemplate, ...values)` (src/modules/assert.js is not among the
sources) — returns normally when the condition holds and otherwise raises a
failure carrying the template and the substitution values (spec §6). -/
def jsAssert (cond : Bool) (template : String) (values : List JSVal) :
    Except Failure Unit :=
  if cond then .ok () else
    .error { template := template, values := values, showDiff := false,
             actualField := none, expectedField := none }

/-- Outcome of one method call on the wrapper: the wrapper's state after the
call (`post`) and either the returned value (`return this`) or the raised
failure.  In the source every field assignment occurs only after all of the
method's asserts have passed, so a raised failure always leaves the wrapper in
its pre-call state, which is how the error branches below are built. -/
structure Step where
  post : Expectation
  result : Except Failure Expectation

/-- `return this`. -/
def Step.ret (st : Expectation) : Step := ⟨st, .ok st⟩

/-- Run one `assert(cond, template, ...values)` and continue with `k` when it
passes; a failed assert propagates the raised failure, leaving the wrapper in
its pre-call state `st`. -/
def Step.assertThen (st : Expectation) (cond : Bool) (template : String)
    (values : List JSVal) (k : Unit → Step) : Step :=
  match jsAssert cond template values with
  | .ok _ => k ()
  | .error f => ⟨st, .error f⟩

/-- `toExist(message)`. -/
def Expectation.toExist (st : Expectation) (message : Option String) : Step :=
  Step.assertThen st (truthy st.actual)
    (msgOr message "Expected %s to exist") [st.actual] fun _ =>
  Step.ret st

/-- `toNotExist(message)`. -/
def Expectation.toNotExist (st : Expectation) (message : Option String) : Step :=
  Step.assertThen st (!truthy st.actual)
    (msgOr message "Expected %s to not exist") [st.actual] fun _ =>
  Step.ret st

/-- `toBe(value, message)`. -/
def Expectation.toBe (st : Expectation) (value : JSVal) (message : Option String) : Step :=
  Step.assertThen st (strictEq st.actual value)
    (msgOr message "Expected %s to be %s") [st.actual, value] fun _ =>
  Step.ret st

/-- `toNotBe(value, message)`. -/
def Expectation.toNotBe (st : Expectation) (value : JSVal) (message : Option String) : Step :=
  Step.assertThen st (!strictEq st.actual value)
    (msgOr message "Expected %s to not be %s") [st.actual, value] fun _ =>
  Step.ret st

/-- `toEqual(value, message)`: the failure raised by the reporter is caught,
decorated with the diff metadata (`showDiff = true` and the raw actual and
expected values) and rethrown. -/
def Expectation.toEqual (st : Expectation) (value : JSVal) (message : Option String) : Step :=
  match jsAssert (isEqual st.actual value)
      (msgOr message "Expected %s to equal %s") [st.actual, value] with
  | .ok _ => Step.ret st
  | .error e =>
      ⟨st, .error { e with showDiff := true, actualField := some st.actual,
                           expectedField := some value }⟩

/-- `toNotEqual(value, message)`. -/
def Expectation.toNotEqual (st : Expectation) (value : JSVal) (message : Option String) : Step :=
  Step.assertThen st (!isEqual st.actual value)
    (msgOr message "Expected %s to not equal %s") [st.actual, value] fun _ =>
  Step.ret st

/-- The collaborators whose behaviour lies outside the value model, kept
abstract: `TestUtils.functionThrows` (invoking the subject with the configured
context and argument list and classifying a propagated error against the
expected value) and `RegExp.prototype.test` for a regexp id against a subject
string. -/
structure Collab where
  fnThrows : JSVal → JSVal → List JSVal → Option JSVal → Bool
  reTest : Nat → String → Bool

/-- JavaScript `value || 'an error'` for the throw-assertion message values:
a falsy expected value is rendered as the string `'an error'`. -/
def orAnError (value : Option JSVal) : JSVal :=
  match value with
  | some v => if truthy v then v else .str "an error"
  | none => .str "an error"

/-- `toThrow(value, message)`. -/
def Expectation.toThrow (cb : Collab) (st : Expectation) (value : Option JSVal)
    (message : Option String) : Step :=
  Step.assertThen st (isFunction st.actual)
    "The \"actual\" argument in expect(actual).toThrow() must be a function, %s was given"
    [st.actual] fun _ =>
  Step.assertThen st (cb.fnThrows st.actual st.context st.args value)
    (msgOr message "Expected %s to throw %s") [st.actual, orAnError value] fun _ =>
  Step.ret st

/-- `toNotThrow(value, message)`. -/
def Expectation.toNotThrow (cb : Collab) (st : Expectation) (value : Option JSVal)
    (message : Option String) : Step :=
  Step.assertThen st (isFunction st.actual)
    "The \"actual\" argument in expect(actual).toNotThrow() must be a function, %s was given"
    [st.actual] fun _ =>
  Step.assertThen st (!cb.fnThrows st.actual st.context st.args value)
    (msgOr message "Expected %s to not throw %s") [st.actual, orAnError value] fun _ =>
  Step.ret st

/-- `toBeA(value, message)`. -/
def Expectation.toBeA (st : Expectation) (value : JSVal) (message : Option String) : Step :=
  Step.assertThen st (isFunction value || typeOf value == "string")
    "The \"value\" argument in toBeA(value) must be a function or a string" [] fun _ =>
  Step.assertThen st (isA st.actual value)
    (msgOr message "Expected %s to be a %s") [st.actual, value] fun _ =>
  Step.ret st

/-- `toNotBeA(value, message)`: note that the source's default template is
the same `'Expected %s to be a %s'` as in `toBeA`, with no negation word. -/
def Expectation.toNotBeA (st : Expectation) (value : JSVal) (message : Option String) : Step :=
  Step.assertThen st (isFunction value || typeOf value == "string")
    "The \"value\" argument in toNotBeA(value) must be a function or a string" [] fun _ =>
  Step.assertThen st (!isA st.actual value)
    (msgOr message "Expected %s to be a %s") [st.actual, value] fun _ =>
  Step.ret st

/-- `toMatch(pattern, message)`. -/
def Expectation.toMatch (cb : Collab) (st : Expectation) (pat : JSVal)
    (message : Option String) : Step :=
  Step.assertThen st (typeOf st.actual == "string")
    "The \"actual\" argument in expect(actual).toMatch() must be a string" [] fun _ =>
  Step.assertThen st (isRegExp pat)
    "The \"value\" argument in toMatch(value) must be a RegExp" [] fun _ =>
  Step.assertThen st
    (match pat with
     | .regexp i => cb.reTest i (jsToString st.actual)
     | _ => false)
    (msgOr message "Expected %s to match %s") [st.actual, pat] fun _ =>
  Step.ret st

/-- `toNotMatch(pattern, message)`. -/
def Expectation.toNotMatch (cb : Collab) (st : Expectation) (pat : JSVal)
    (message : Option String) : Step :=
  Step.assertThen st (typeOf st.actual == "string")
    "The \"actual\" argument in expect(actual).toNotMatch() must be a string" [] fun _ =>
  Step.assertThen st (isRegExp pat)
    "The \"value\" argument in toNotMatch(value) must be a RegExp" [] fun _ =>
  Step.assertThen st
    (!(match pat with
       | .regexp i => cb.reTest i (jsToString st.actual)
       | _ => false))
    (msgOr message "Expected %s to not match %s") [st.actual, pat] fun _ =>
  Step.ret st

/-- JavaScript `<` as reached behind the ordering predicates' number guards:
a comparison involving `NaN` is false; finite numbers compare as rationals.
(The guards ensure both operands have `typeof` number, so no coercion case
arises.) -/
def jsLt : JSVal → JSVal → Bool
  | .num a, .num b => decide (a < b)
  | _, _ => false

/-- JavaScript `<=` behind the number guards; false when `NaN` is involved. -/
def jsLe : JSVal → JSVal → Bool
  | .num a, .num b => decide (a ≤ b)
  | _, _ => false

/-- JavaScript `>` behind the number guards; false when `NaN` is involved. -/
def jsGt : JSVal → JSVal → Bool
  | .num a, .num b => decide (a > b)
  | _, _ => false

/-- JavaScript `>=` behind the number guards; false when `NaN` is involved. -/
def jsGe : JSVal → JSVal → Bool
  | .num a, .num b => decide (a ≥ b)
  | _, _ => false

/-- `toBeLessThan(value, message)`. -/
def Expectation.toBeLessThan (st : Expectation) (value : JSVal)
    (message : Option String) : Step :=
  Step.assertThen st (typeOf st.actual == "number")
    "The \"actual\" argument in expect(actual).toBeLessThan() must be a number" [] fun _ =>
  Step.assertThen st (typeOf value == "number")
    "The \"value\" argument in toBeLessThan(value) must be a number" [] fun _ =>
  Step.assertThen st (jsLt st.actual value)
    (msgOr message "Expected %s to be less than %s") [st.actual, value] fun _ =>
  Step.ret st

/-- `toBeLessThanOrEqualTo(value, message)`. -/
def Expectation.toBeLessThanOrEqualTo (st : Expectation) (value : JSVal)
    (message : Option String) : Step :=
  Step.assertThen st (typeOf st.actual == "number")
    "The \"actual\" argument in expect(actual).toBeLessThanOrEqualTo() must be a number" [] fun _ =>
  Step.assertThen st (typeOf value == "number")
    "The \"value\" argument in toBeLessThanOrEqualTo(value) must be a number" [] fun _ =>
  Step.assertThen st (jsLe st.actual value)
    (msgOr message "Expected %s to be less than or equal to %s") [st.actual, value] fun _ =>
  Step.ret st

/-- `toBeGreaterThan(value, message)`. -/
def Expectation.toBeGreaterThan (st : Expectation) (value : JSVal)
    (message : Option String) : Step :=
  Step.assertThen st (typeOf st.actual == "number")
    "The \"actual\" argument in expect(actual).toBeGreaterThan() must be a number" [] fun _ =>
  Step.assertThen st (typeOf value == "number")
    "The \"value\" argument in toBeGreaterThan(value) must be a number" [] fun _ =>
  Step.assertThen st (jsGt st.actual value)
    (msgOr message "Expected %s to be greater than %s") [st.actual, value] fun _ =>
  Step.ret st

/-- `toBeGreaterThanOrEqualTo(value, message)`. -/
def Expectation.toBeGreaterThanOrEqualTo (st : Expectation) (value : JSVal)
    (message : Option String) : Step :=
  Step.assertThen st (typeOf st.actual == "number")
    "The \"actual\" argument in expect(actual).toBeGreaterThanOrEqualTo() must be a number" [] fun _ =>
  Step.assertThen st (typeOf value == "number")
    "The \"value\" argument in toBeGreaterThanOrEqualTo(value) must be a number" [] fun _ =>
  Step.assertThen st (jsGe st.actual value)
    (msgOr message "Expected %s to be greater than or equal to %s") [st.actual, value] fun _ =>
  Step.ret st

/-- The `compareValues` parameter position of `toInclude`/`toExclude`: absent
(`undefined`), `null`, a string (which the source reinterprets as the message
argument), or a comparator function. -/
inductive CompareArg : Type where
  | absent : CompareArg
  | nullArg : CompareArg
  | str : String → CompareArg
  | fn : (JSVal → JSVal → Bool) → CompareArg

/-- The argument-shifting prologue shared by `toInclude` and `toExclude`:
a string in the `compareValues` slot becomes the message (overwriting any
third argument), and a missing or null comparator defaults to `isEqual`. -/
def shiftCompare (cmp : CompareArg) (message : Option String) :
    (JSVal → JSVal → Bool) × Option String :=
  let p : CompareArg × Option String :=
    match cmp with
    | .str s => (.nullArg, some s)
    | c => (c, message)
  match p.1 with
  | .fn f => (f, p.2)
  | _ => (isEqual, p.2)

/-- The containment boolean shared by `toInclude` and `toExclude`: dispatch on
the subject being an array, an object, or (otherwise) a string. -/
def containsIn (actual value : JSVal) (cmp : JSVal → JSVal → Bool) : Bool :=
  match actual with
  | .arr _ xs => arrayContains xs value cmp
  | .obj _ fs => objectContains fs value cmp
  | a => stringContains (jsToString a) value

/-- `toInclude(value, compareValues, message)`. -/
def Expectation.toInclude (st : Expectation) (value : JSVal) (cmp : CompareArg)
    (message : Option String) : Step :=
  let cm := shiftCompare cmp message
  Step.assertThen st (isArray st.actual || isObject st.actual || typeOf st.actual == "string")
    "The \"actual\" argument in expect(actual).toInclude() must be an array, object, or a string"
    [] fun _ =>
  Step.assertThen st (containsIn st.actual value cm.1)
    (msgOr cm.2 "Expected %s to include %s") [st.actual, value] fun _ =>
  Step.ret st

/-- `toExclude(value, compareValues, message)`. -/
def Expectation.toExclude (st : Expectation) (value : JSVal) (cmp : CompareArg)
    (message : Option String) : Step :=
  let cm := shiftCompare cmp message
  Step.assertThen st (isArray st.actual || isObject st.actual || typeOf st.actual == "string")
    "The \"actual\" argument in expect(actual).toExclude() must be an array, object, or a string"
    [] fun _ =>
  Step.assertThen st (!containsIn st.actual value cm.1)
    (msgOr cm.2 "Expected %s to exclude %s") [st.actual, value] fun _ =>
  Step.ret st

/-- The call records of a spy subject (empty for non-spies; read only behind
the `isSpy` guard). -/
def spyCalls : JSVal → List (List JSVal)
  | .spy _ calls => calls
  | _ => []

/-- `toHaveBeenCalled(message)`. -/
def Expectation.toHaveBeenCalled (st : Expectation) (message : Option String) : Step :=
  Step.assertThen st (isSpy st.actual)
    "The \"actual\" argument in expect(actual).toHaveBeenCalled() must be a spy" [] fun _ =>
  Step.assertThen st (decide (0 < (spyCalls st.actual).length))
    (msgOr message "spy was not called") [] fun _ =>
  Step.ret st

/-- `toHaveBeenCalledWith(...expectedArgs)`: some recorded call's argument
list deep-equals the expected rest-argument list. -/
def Expectation.toHaveBeenCalledWith (st : Expectation) (expectedArgs : List JSVal) : Step :=
  Step.assertThen st (isSpy st.actual)
    "The \"actual\" argument in expect(actual).toHaveBeenCalledWith() must be a spy" [] fun _ =>
  Step.assertThen st ((spyCalls st.actual).any (fun call => isEqualList call expectedArgs))
    "spy was never called with %s" [.arr 0 expectedArgs] fun _ =>
  Step.ret st

/-- `toNotHaveBeenCalled(message)`. -/
def Expectation.toNotHaveBeenCalled (st : Expectation) (message : Option String) : Step :=
  Step.assertThen st (isSpy st.actual)
    "The \"actual\" argument in expect(actual).toNotHaveBeenCalled() must be a spy" [] fun _ =>
  Step.assertThen st ((spyCalls st.actual).length == 0)
    (msgOr message "spy was not supposed to be called") [] fun _ =>
  Step.ret st

/-- `withContext(context)`: replaces the binding value after re-validating
callability. -/
def Expectation.withContext (st : Expectation) (context : JSVal) : Step :=
  Step.assertThen st (isFunction st.actual)
    "The \"actual\" argument in expect(actual).withContext() must be a function" [] fun _ =>
  Step.ret { st with context := context }

/-- One level of `Array.prototype.concat` spreading: `concat(...args)`
appends each non-array argument as-is and the elements of each array
argument. -/
def concatSpread : List JSVal → List JSVal
  | [] => []
  | .arr _ xs :: rest => xs ++ concatSpread rest
  | v :: rest => v :: concatSpread rest

/-- `withArgs(...args)`: `this.args = this.args.concat(...args)` when at
least one argument was supplied. -/
def Expectation.withArgs (st : Expectation) (args : List JSVal) : Step :=
  Step.assertThen st (isFunction st.actual)
    "The \"actual\" argument in expect(actual).withArgs() must be a function" [] fun _ =>
  Step.ret (if args.length != 0 then { st with args := st.args ++ concatSpread args } else st)

/-- The alias table of the source (`const aliases = {...}`): alternate method
name → canonical method name. -/
def aliases : List (String × String) :=
  [("toBeAn", "toBeA"),
   ("toNotBeAn", "toNotBeA"),
   ("toBeTruthy", "toExist"),
   ("toBeFalsy", "toNotExist"),
   ("toBeFewerThan", "toBeLessThan"),
   ("toBeMoreThan", "toBeGreaterThan"),
   ("toContain", "toInclude"),
   ("toNotContain", "toExclude")]

/-- `Expectation.prototype.toBeAn = Expectation.prototype.toBeA`: the alias
name is bound to the very same method implementation. -/
def Expectation.toBeAn : Expectation → JSVal → Option String → Step :=
  Expectation.toBeA

/-- `Expectation.prototype.toNotBeAn = Expectation.prototype.toNotBeA`. -/
def Expectation.toNotBeAn : Expectation → JSVal → Option String → Step :=
  Expectation.toNotBeA

/-- `Expectation.prototype.toBeTruthy = Expectation.prototype.toExist`. -/
def Expectation.toBeTruthy : Expectation → Option String → Step :=
  Expectation.toExist

/-- `Expectation.prototype.toBeFalsy = Expectation.prototype.toNotExist`. -/
def Expectation.toBeFalsy : Expectation → Option String → Step :=
  Expectation.toNotExist

/-- `Expectation.prototype.toBeFewerThan = Expectation.prototype.toBeLessThan`. -/
def Expectation.toBeFewerThan : Expectation → JSVal → Option String → Step :=
  Expectation.toBeLessThan

/-- `Expectation.prototype.toBeMoreThan = Expectation.prototype.toBeGreaterThan`. -/
def Expectation.toBeMoreThan : Expectation → JSVal → Option String → Step :=
  Expectation.toBeGreaterThan

/-- `Expectation.prototype.toContain = Expectation.prototype.toInclude`. -/
def Expectation.toContain : Expectation → JSVal → CompareArg → Option String → Step :=
  Expectation.toInclude

/-- `Expectation.prototype.toNotContain = Expectation.prototype.toExclude`. -/
def Expectation.toNotContain : Expectation → JSVal → CompareArg → Option String → Step :=
  Expectation.toExclude

/-- One invocation of a method of the wrapper, with its arguments — the whole
public method set, aliases included. -/
inductive MethodCall : Type where
  | toExist : Option String → MethodCall
  | toNotExist : Option String → MethodCall
  | toBe : JSVal → Option String → MethodCall
  | toNotBe : JSVal → Option String → MethodCall
  | toEqual : JSVal → Option String → MethodCall
  | toNotEqual : JSVal → Option String → MethodCall
  | toThrow : Option JSVal → Option String → MethodCall
  | toNotThrow : Option JSVal → Option String → MethodCall
  | toBeA : JSVal → Option String → MethodCall
  | toNotBeA : JSVal → Option String → MethodCall
  | toMatch : JSVal → Option String → MethodCall
  | toNotMatch : JSVal → Option String → MethodCall
  | toBeLessThan : JSVal → Option String → MethodCall
  | toBeLessThanOrEqualTo : JSVal → Option String → MethodCall
  | toBeGreaterThan : JSVal → Option String → MethodCall
  | toBeGreaterThanOrEqualTo : JSVal → Option String → MethodCall
  | toInclude : JSVal → CompareArg → Option String → MethodCall
  | toExclude : JSVal → CompareArg → Option String → MethodCall
  | toHaveBeenCalled : Option String → MethodCall
  | toHaveBeenCalledWith : List JSVal → MethodCall
  | toNotHaveBeenCalled : Option String → MethodCall
  | withContext : JSVal → MethodCall
  | withArgs : List JSVal → MethodCall
  | toBeAn : JSVal → Option String → MethodCall
  | toNotBeAn : JSVal → Option String → MethodCall
  | toBeTruthy : Option String → MethodCall
  | toBeFalsy : Option String → MethodCall
  | toBeFewerThan : JSVal → Option String → MethodCall
  | toBeMoreThan : JSVal → Option String → MethodCall
  | toContain : JSVal → CompareArg → Option String → MethodCall
  | toNotContain : JSVal → CompareArg → Option String → MethodCall

/-- Dispatch a method invocation on a wrapper. -/
def Expectation.dispatch (cb : Collab) (st : Expectation) : MethodCall → Step
  | .toExist m => st.toExist m
  | .toNotExist m => st.toNotExist m
  | .toBe v m => st.toBe v m
  | .toNotBe v m => st.toNotBe v m
  | .toEqual v m => st.toEqual v m
  | .toNotEqual v m => st.toNotEqual v m
  | .toThrow v m => Expectation.toThrow cb st v m
  | .toNotThrow v m => Expectation.toNotThrow cb st v m
  | .toBeA v m => st.toBeA v m
  | .toNotBeA v m => st.toNotBeA v m
  | .toMatch p m => Expectation.toMatch cb st p m
  | .toNotMatch p m => Expectation.toNotMatch cb st p m
  | .toBeLessThan v m => st.toBeLessThan v m
  | .toBeLessThanOrEqualTo v m => st.toBeLessThanOrEqualTo v m
  | .toBeGreaterThan v m => st.toBeGreaterThan v m
  | .toBeGreaterThanOrEqualTo v m => st.toBeGreaterThanOrEqualTo v m
  | .toInclude v c m => st.toInclude v c m
  | .toExclude v c m => st.toExclude v c m
  | .toHaveBeenCalled m => st.toHaveBeenCalled m
  | .toHaveBeenCalledWith as => st.toHaveBeenCalledWith as
  | .toNotHaveBeenCalled m => st.toNotHaveBeenCalled m
  | .withContext c => st.withContext c
  | .withArgs as => st.withArgs as
  | .toBeAn v m => st.toBeAn v m
  | .toNotBeAn v m => st.toNotBeAn v m
  | .toBeTruthy m => st.toBeTruthy m
  | .toBeFalsy m => st.toBeFalsy m
  | .toBeFewerThan v m => st.toBeFewerThan v m
  | .toBeMoreThan v m => st.toBeMoreThan v m
  | .toContain v c m => st.toContain v c m
  | .toNotContain v c m => st.toNotContain v c m

/-- The configuration methods (the ones that update wrapper state). -/
def MethodCall.isConfig : MethodCall → Bool
  | .withContext _ => true
  | .withArgs _ => true
  | _ => false

/-- Whether the invocation is a `toEqual` call (the only method that attaches
diff metadata to its failure). -/
def MethodCall.isToEqualCall : MethodCall → Bool
  | .toEqual _ _ => true
  | _ => false

/-- The call raised no failure. -/
def Step.passes (s : Step) : Bool :=
  match s.result with
  | .ok _ => true
  | .error _ => false

/-- Every failure the step can raise is a plain reporter failure: no diff
flag and no raw actual/expected payload attached. -/
def NoDiff (s : Step) : Prop :=
  ∀ f, s.result = .error f →
    f.showDiff = false ∧ f.actualField = none ∧ f.expectedField = none

/-- The chaining/frame contract of one call on a wrapper in state `st0`:
the wrapper's subject is never reassigned, a normal return yields the wrapper
itself, and (`keep` set, i.e. for non-configuration methods) the wrapper's
state is left entirely unchanged. -/
def Chains (st0 : Expectation) (keep : Bool) (s : Step) : Prop :=
  s.post.actual = st0.actual ∧
  (∀ w, s.result = .ok w → w = s.post) ∧
  (keep = true → s.post = st0)

/-- The failure a violated argument-type contract raises: the usage-error
template, with no positional substitution values (assertion failures of the
ordering predicates always carry the two compared values). -/
def usageFailure (t : String) : Failure :=
  ⟨t, [], false, none, none⟩

theorem noDiff_ret (st : Expectation) : NoDiff (Step.ret st) := by
  intro f h
  simp [Step.ret] at h

theorem noDiff_assertThen (st : Expectation) (cond : Bool) (t : String)
    (vs : List JSVal) (k : Unit → Step) (hk : NoDiff (k ())) :
    NoDiff (Step.assertThen st cond t vs k) := by
  intro f h
  unfold Step.assertThen jsAssert at h
  cases cond with
  | true => exact hk f (by simpa using h)
  | false =>
      simp at h
      cases h
      exact ⟨rfl, rfl, rfl⟩

theorem chains_ret_self (st0 : Expectation) : Chains st0 true (Step.ret st0) := by
  refine ⟨rfl, ?_, fun _ => rfl⟩
  intro w hw
  have h0 : st0 = w := by simpa [Step.ret] using hw
  exact h0.symm

theorem chains_ret_mut (st0 st1 : Expectation) (h : st1.actual = st0.actual) :
    Chains st0 false (Step.ret st1) := by
  refine ⟨h, ?_, by simp⟩
  intro w hw
  have h0 : st1 = w := by simpa [Step.ret] using hw
  exact h0.symm

theorem chains_assertThen (st0 : Expectation) (keep : Bool) (cond : Bool)
    (t : String) (vs : List JSVal) (k : Unit → Step)
    (hk : cond = true → Chains st0 keep (k ())) :
    Chains st0 keep (Step.assertThen st0 cond t vs k) := by
  unfold Step.assertThen jsAssert
  cases cond with
  | true => simpa using hk rfl
  | false =>
      refine ⟨rfl, ?_, fun _ => rfl⟩
      intro w hw
      simp at hw

/-- Claim C5: for every pair of subject and value, exactly one of
`toBe(value)` and `toNotBe(value)` passes; the comparison is strict identity
with no coercion, so in particular `toBe` fails and `toNotBe` passes when both
the subject and the value are `NaN`. -/
theorem toBe_toNotBe_exact_complements (st : Expectation) (v : JSVal)
    (m : Option String) :
    (st.toBe v m).passes = !(st.toNotBe v m).passes
  ∧ ((expect .nan).toBe .nan m).passes = false
  ∧ ((expect .nan).toNotBe .nan m).passes = true := by
  refine ⟨?_, rfl, rfl⟩
  cases h : strictEq st.actual v <;>
    simp [Expectation.toBe, Expectation.toNotBe, Step.assertThen, jsAssert,
          Step.ret, Step.passes, h]

/-- Claim C4: the alias table maps exactly the eight documented alternate
names to their canonical targets, and each alias name is bound to the very
same method implementation, so every alias produces an outcome identical to
its canonical method (same pass/fail result, same failure payload, same
post-state) on every subject and argument list. -/
theorem aliases_bound_to_canonical_methods :
    aliases = [("toBeAn", "toBeA"), ("toNotBeAn", "toNotBeA"),
               ("toBeTruthy", "toExist"), ("toBeFalsy", "toNotExist"),
               ("toBeFewerThan", "toBeLessThan"), ("toBeMoreThan", "toBeGreaterThan"),
               ("toContain", "toInclude"), ("toNotContain", "toExclude")]
  ∧ (∀ (st : Expectation) (v : JSVal) (m : Option String),
       st.toBeAn v m = st.toBeA v m)
  ∧ (∀ (st : Expectation) (v : JSVal) (m : Option String),
       st.toNotBeAn v m = st.toNotBeA v m)
  ∧ (∀ (st : Expectation) (m : Option String), st.toBeTruthy m = st.toExist m)
  ∧ (∀ (st : Expectation) (m : Option String), st.toBeFalsy m = st.toNotExist m)
  ∧ (∀ (st : Expectation) (v : JSVal) (m : Option String),
       st.toBeFewerThan v m = st.toBeLessThan v m)
  ∧ (∀ (st : Expectation) (v : JSVal) (m : Option String),
       st.toBeMoreThan v m = st.toBeGreaterThan v m)
  ∧ (∀ (st : Expectation) (v : JSVal) (c : CompareArg) (m : Option String),
       st.toContain v c m = st.toInclude v c m)
  ∧ (∀ (st : Expectation) (v : JSVal) (c : CompareArg) (m : Option String),
       st.toNotContain v c m = st.toExclude v c m) :=
  ⟨rfl, fun _ _ _ => rfl, fun _ _ _ => rfl, fun _ _ => rfl, fun _ _ => rfl,
   fun _ _ _ => rfl, fun _ _ _ => rfl, fun _ _ _ _ => rfl, fun _ _ _ _ => rfl⟩

/-- Claim C7: a string occupying the `compareValues` parameter position of
`toInclude`/`toExclude` is reinterpreted as the message argument and the
containment comparator defaults to the deep-equality comparator, so the call
behaves identically to one with no comparator and that string as the
message. -/
theorem compareFn_string_shifts_to_message (st : Expectation) (v : JSVal)
    (s : String) (m : Option String) :
    st.toInclude v (.str s) m = st.toInclude v .absent (some s)
  ∧ st.toExclude v (.str s) m = st.toExclude v .absent (some s)
  ∧ (shiftCompare (.str s) m).1 = isEqual
  ∧ (shiftCompare (.str s) m).2 = some s :=
  ⟨rfl, rfl, rfl, rfl⟩

/-- Claim C3: for a subject that is an array, a plain object, or a string,
`toExclude` passes exactly when `toInclude` fails on the identical arguments:
both compute the same containment boolean and `toExclude` asserts its
negation. -/
theorem toExclude_negates_toInclude (st : Expectation) (v : JSVal)
    (c : CompareArg) (m : Option String)
    (h : (isArray st.actual || isObject st.actual || typeOf st.actual == "string") = true) :
    (st.toExclude v c m).passes = !(st.toInclude v c m).passes := by
  unfold Expectation.toExclude Expectation.toInclude
  cases hc : containsIn st.actual v (shiftCompare c m).1 <;>
    simp [Step.assertThen, jsAssert, h, hc, Step.ret, Step.passes]

theorem toExclude_negates_toInclude_witness :
    ((expect (.str "abc")).toExclude (.str "zz") .absent none).passes
      = !((expect (.str "abc")).toInclude (.str "zz") .absent none).passes :=
  toExclude_negates_toInclude (expect (.str "abc")) (.str "zz") .absent none (by decide)

theorem isEqualList_length_and_pointwise (c : List JSVal) :
    ∀ e : List JSVal,
      isEqualList c e =
        (decide (c.length = e.length) && (c.zip e).all (fun p => isEqual p.1 p.2)) := by
  induction c with
  | nil => intro e; cases e <;> simp [isEqualList]
  | cons x xs ih =>
      intro e
      cases e with
      | nil => simp [isEqualList]
      | cons y ys =>
          simp only [isEqualList, ih ys, List.zip_cons_cons, List.all_cons,
                     List.length_cons, Nat.succ_inj]
          cases isEqual x y <;> cases decide (xs.length = ys.length) <;> simp

/-- Claim C8: on a spy subject, `toHaveBeenCalledWith` passes exactly when
some recorded call's argument list deep-equals the expected argument list —
and that deep equality of argument lists holds exactly when the lengths agree
and the entries are pairwise deep-equal, so a recorded call with extra or
missing arguments never matches. -/
theorem toHaveBeenCalledWith_some_call_deep_equals (i : Nat)
    (calls : List (List JSVal)) (expectedArgs : List JSVal) :
    ((expect (.spy i calls)).toHaveBeenCalledWith expectedArgs).passes
      = calls.any (fun call => isEqualList call expectedArgs)
  ∧ (∀ call e : List JSVal,
       isEqualList call e =
         (decide (call.length = e.length) && (call.zip e).all (fun p => isEqual p.1 p.2))) := by
  constructor
  · cases hc : calls.any (fun call => isEqualList call expectedArgs) <;>
      simp [Expectation.toHaveBeenCalledWith, Step.assertThen, jsAssert,
            isSpy, spyCalls, expect, hc, Step.ret, Step.passes]
  · intro call e
    exact isEqualList_length_and_pointwise call e

/-- Claim C1 as stated is false: `this.args = this.args.concat(...args)`
spreads the rest array into `Array.prototype.concat`, which flattens every
argument that is itself an array by one level.  With a callable subject and
the single array argument `[1, 2]`, the claim predicts the argument list
`[[1, 2]]`, but the code produces `[1, 2]`. -/
theorem withArgs_array_arg_not_appended_as_is :
    ¬ (((expect (.func 0)).withArgs [.arr 5 [.num 1, .num 2]]).post.args
         = [JSVal.arr 5 [.num 1, .num 2]]) := by
  intro h
  have h2 : [JSVal.num 1, JSVal.num 2] = [JSVal.arr 5 [JSVal.num 1, JSVal.num 2]] := h
  simp at h2

/-- Claim C1, amended: on a callable subject, `withArgs(a1, ..., an)` appends
to the existing argument list each `ai` that is not an array as-is, and the
elements of each `ai` that is an array (one level of flattening, the
behaviour of `Array.prototype.concat` on spread arguments); with zero
arguments the list is unchanged (the source's no-op branch coincides with
appending nothing); in all cases the wrapper itself is returned with no other
state change. -/
theorem withArgs_appends_with_concat_spread (st : Expectation) (args : List JSVal)
    (h : isFunction st.actual = true) :
    st.withArgs args = Step.ret { st with args := st.args ++ concatSpread args } := by
  unfold Expectation.withArgs
  simp only [Step.assertThen, jsAssert, h, if_true]
  cases args with
  | nil => simp [concatSpread]
  | cons a rest => simp

theorem withArgs_appends_with_concat_spread_witness :
    isFunction (JSVal.func 0) = true ∧
    (expect (.func 0)).withArgs [.num 3, .arr 7 [.num 1, .num 2]]
      = Step.ret { expect (.func 0) with
                   args := [JSVal.num 3, JSVal.num 1, JSVal.num 2] } :=
  ⟨rfl, withArgs_appends_with_concat_spread (expect (.func 0))
          [.num 3, .arr 7 [.num 1, .num 2]] rfl⟩

/-- Claim C10: when `toNotBeA` fails its type assertion without a
caller-supplied message, the raised failure uses the template
`'Expected %s to be a %s'` with the subject and the type as the substitution
values — exactly the failure a default `toBeA` failure produces for the same
subject and type, with no negation word, so the two default messages are
textually indistinguishable. -/
theorem toNotBeA_default_template_same_as_toBeA (st : Expectation) (v : JSVal)
    (hv : (isFunction v || typeOf v == "string") = true) :
    (isA st.actual v = true →
       (st.toNotBeA v none).result =
         .error ⟨"Expected %s to be a %s", [st.actual, v], false, none, none⟩)
  ∧ (isA st.actual v = false →
       (st.toBeA v none).result =
         .error ⟨"Expected %s to be a %s", [st.actual, v], false, none, none⟩) := by
  constructor <;> intro h <;>
    simp [Expectation.toNotBeA, Expectation.toBeA, Step.assertThen, jsAssert,
          hv, h, msgOr]

theorem toNotBeA_default_template_witness :
    ((expect (.num 1)).toNotBeA (.str "number") none).result =
      .error ⟨"Expected %s to be a %s", [.num 1, .str "number"], false, none, none⟩ :=
  (toNotBeA_default_template_same_as_toBeA (expect (.num 1)) (.str "number")
    (by decide)).1 (by decide)

/-- Claim C2: a failing `toEqual` raises a failure decorated with
`showDiff = true` and the raw actual/expected values, and no other method's
failure — in particular `toNotEqual`'s — carries this diff payload, for any
subject, arguments and collaborator behaviour. -/
theorem toEqual_failure_carries_diff_payload (cb : Collab) (st : Expectation)
    (v : JSVal) (m : Option String) (c : MethodCall) :
    (isEqual st.actual v = false →
       (st.toEqual v m).result =
         .error ⟨msgOr m "Expected %s to equal %s", [st.actual, v], true,
                 some st.actual, some v⟩)
  ∧ (c.isToEqualCall = false → NoDiff (st.dispatch cb c)) := by
  constructor
  · intro h
    simp [Expectation.toEqual, jsAssert, h, Step.ret]
  · intro hc
    cases c <;>
      first
      | exact Bool.noConfusion hc
      | exact noDiff_assertThen _ _ _ _ _ (noDiff_ret _)
      | exact noDiff_assertThen _ _ _ _ _
          (noDiff_assertThen _ _ _ _ _ (noDiff_ret _))
      | exact noDiff_assertThen _ _ _ _ _
          (noDiff_assertThen _ _ _ _ _ (noDiff_assertThen _ _ _ _ _ (noDiff_ret _)))

theorem toEqual_failure_carries_diff_payload_witness :
    ((expect (.num 1)).toEqual (.num 2) none).result =
      .error ⟨"Expected %s to equal %s", [.num 1, .num 2], true,
              some (.num 1), some (.num 2)⟩ :=
  (toEqual_failure_carries_diff_payload ⟨fun _ _ _ _ => false, fun _ _ => false⟩
    (expect (.num 1)) (.num 2) none (.toNotEqual (.num 1) none)).1
    (by simp [expect, isEqual])

/-- Claim C6: each ordering predicate raises its usage-error failure — the
argument-contract template with no substitution values, regardless of what the
comparison would evaluate to — whenever the subject or the argument is not a
number; when both are numbers it performs the standard numeric comparison
(the outcome is exactly the comparison boolean, a failure being the assertion
failure carrying the two compared values), with no NaN special-casing: `NaN`
has `typeof` number, so comparisons involving `NaN` are all false and fail as
assertion failures, never as usage errors. -/
theorem ordering_predicates_usage_and_nan (st : Expectation) (v : JSVal)
    (m : Option String) :
    (typeOf st.actual ≠ "number" →
       (st.toBeLessThan v m).result = .error (usageFailure
         "The \"actual\" argument in expect(actual).toBeLessThan() must be a number") ∧
       (st.toBeLessThanOrEqualTo v m).result = .error (usageFailure
         "The \"actual\" argument in expect(actual).toBeLessThanOrEqualTo() must be a number") ∧
       (st.toBeGreaterThan v m).result = .error (usageFailure
         "The \"actual\" argument in expect(actual).toBeGreaterThan() must be a number") ∧
       (st.toBeGreaterThanOrEqualTo v m).result = .error (usageFailure
         "The \"actual\" argument in expect(actual).toBeGreaterThanOrEqualTo() must be a number"))
  ∧ (typeOf st.actual = "number" → typeOf v ≠ "number" →
       (st.toBeLessThan v m).result = .error (usageFailure
         "The \"value\" argument in toBeLessThan(value) must be a number") ∧
       (st.toBeLessThanOrEqualTo v m).result = .error (usageFailure
         "The \"value\" argument in toBeLessThanOrEqualTo(value) must be a number") ∧
       (st.toBeGreaterThan v m).result = .error (usageFailure
         "The \"value\" argument in toBeGreaterThan(value) must be a number") ∧
       (st.toBeGreaterThanOrEqualTo v m).result = .error (usageFailure
         "The \"value\" argument in toBeGreaterThanOrEqualTo(value) must be a number"))
  ∧ (typeOf st.actual = "number" → typeOf v = "number" →
       (st.toBeLessThan v m).result =
         (if jsLt st.actual v then .ok st else .error
           ⟨msgOr m "Expected %s to be less than %s", [st.actual, v], false, none, none⟩) ∧
       (st.toBeLessThanOrEqualTo v m).result =
         (if jsLe st.actual v then .ok st else .error
           ⟨msgOr m "Expected %s to be less than or equal to %s", [st.actual, v], false, none, none⟩) ∧
       (st.toBeGreaterThan v m).result =
         (if jsGt st.actual v then .ok st else .error
           ⟨msgOr m "Expected %s to be greater than %s", [st.actual, v], false, none, none⟩) ∧
       (st.toBeGreaterThanOrEqualTo v m).result =
         (if jsGe st.actual v then .ok st else .error
           ⟨msgOr m "Expected %s to be greater than or equal to %s", [st.actual, v], false, none, none⟩))
  ∧ ((st.actual = .nan ∨ v = .nan) →
       jsLt st.actual v = false ∧ jsLe st.actual v = false ∧
       jsGt st.actual v = false ∧ jsGe st.actual v = false) := by
  refine ⟨?_, ?_, ?_, ?_⟩
  · intro h
    have h1 : (typeOf st.actual == "number") = false := by simpa using h
    refine ⟨?_, ?_, ?_, ?_⟩ <;>
      simp [Expectation.toBeLessThan, Expectation.toBeLessThanOrEqualTo,
            Expectation.toBeGreaterThan, Expectation.toBeGreaterThanOrEqualTo,
            Step.assertThen, jsAssert, h1, usageFailure]
  · intro h h2
    have h1 : (typeOf st.actual == "number") = true := by simpa using h
    have h3 : (typeOf v == "number") = false := by simpa using h2
    refine ⟨?_, ?_, ?_, ?_⟩ <;>
      simp [Expectation.toBeLessThan, Expectation.toBeLessThanOrEqualTo,
            Expectation.toBeGreaterThan, Expectation.toBeGreaterThanOrEqualTo,
            Step.assertThen, jsAssert, h1, h3, usageFailure]
  · intro h h2
    have h1 : (typeOf st.actual == "number") = true := by simpa using h
    have h3 : (typeOf v == "number") = true := by simpa using h2
    refine ⟨?_, ?_, ?_, ?_⟩ <;>
      [cases hj : jsLt st.actual v; cases hj : jsLe st.actual v;
       cases hj : jsGt st.actual v; cases hj : jsGe st.actual v] <;>
      simp [Expectation.toBeLessThan, Expectation.toBeLessThanOrEqualTo,
            Expectation.toBeGreaterThan, Expectation.toBeGreaterThanOrEqualTo,
            Step.assertThen, jsAssert, h1, h3, hj, Step.ret]
  · intro h
    cases h with
    | inl h => rw [h]; cases v <;> simp [jsLt, jsLe, jsGt, jsGe]
    | inr h => subst h; cases hs : st.actual <;> simp [jsLt, jsLe, jsGt, jsGe]

theorem ordering_predicates_usage_witness :
    ((expect (.str "a")).toBeLessThan (.num 1) none).result = .error (usageFailure
      "The \"actual\" argument in expect(actual).toBeLessThan() must be a number") :=
  ((ordering_predicates_usage_and_nan (expect (.str "a")) (.num 1) none).1
    (by decide)).1

theorem chains_toEqual (st : Expectation) (v : JSVal) (m : Option String) :
    Chains st true (st.toEqual v m) := by
  cases hc : isEqual st.actual v with
  | true =>
      have he : st.toEqual v m = Step.ret st := by
        simp [Expectation.toEqual, jsAssert, hc]
      rw [he]; exact chains_ret_self st
  | false =>
      have he : st.toEqual v m =
          ⟨st, .error ⟨msgOr m "Expected %s to equal %s", [st.actual, v], true,
                       some st.actual, some v⟩⟩ := by
        simp [Expectation.toEqual, jsAssert, hc]
      rw [he]
      refine ⟨rfl, ?_, fun _ => rfl⟩
      intro w hw
      simp at hw

/-- Claim C9: every method invocation — predicate or configuration, on any
subject, with any arguments and any collaborator behaviour — that returns
normally returns the very same wrapper (its post-call state), enabling
chaining; no invocation ever reassigns the observed subject stored at
construction; and non-configuration invocations leave the wrapper state
entirely unchanged. -/
theorem dispatch_returns_wrapper_and_preserves_subject (cb : Collab)
    (st : Expectation) (c : MethodCall) :
    ((st.dispatch cb c).post.actual = st.actual)
  ∧ (∀ w, (st.dispatch cb c).result = .ok w → w = (st.dispatch cb c).post)
  ∧ (c.isConfig = false → (st.dispatch cb c).post = st) := by
  have main : Chains st (!c.isConfig) (st.dispatch cb c) := by
    cases c <;>
      first
      | exact chains_toEqual _ _ _
      | exact chains_assertThen _ _ _ _ _ _ (fun _ => chains_ret_self _)
      | exact chains_assertThen _ _ _ _ _ _
          (fun _ => chains_assertThen _ _ _ _ _ _ (fun _ => chains_ret_self _))
      | exact chains_assertThen _ _ _ _ _ _
          (fun _ => chains_assertThen _ _ _ _ _ _
            (fun _ => chains_assertThen _ _ _ _ _ _ (fun _ => chains_ret_self _)))
      | exact chains_assertThen _ _ _ _ _ _ (fun _ => chains_ret_mut _ _ rfl)
      | exact chains_assertThen _ _ _ _ _ _
          (fun _ => chains_ret_mut _ _ (by split <;> rfl))
  exact ⟨main.1, main.2.1, fun h => main.2.2 (by rw [h]; rfl)⟩

theorem dispatch_returns_wrapper_witness :
    (expect .nan =
      ((expect .nan).dispatch ⟨fun _ _ _ _ => false, fun _ _ => false⟩
        (.toNotBe .nan none)).post)
  ∧ ((expect .nan).dispatch ⟨fun _ _ _ _ => false, fun _ _ => false⟩
        (.toNotBe .nan none)).post = expect .nan := by
  have h := dispatch_returns_wrapper_and_preserves_subject
    ⟨fun _ _ _ _ => false, fun _ _ => false⟩ (expect .nan) (.toNotBe .nan none)
  exact ⟨h.2.1 (expect .nan) rfl, h.2.2 rfl⟩
